import Mathlib

/-!
Shallow embedding of the DSA contest backend's judging and aggregation core.

Sources embedded:
- `src/unnamed/part_002` (`utils/codeRunner.js`): `CodeRunner.runCode`,
  `executeTestCase`, `runPython` / `runJavaScript` / `runCpp` / `runJava`,
  `estimateMemoryUsage`.  Process behaviour (exit codes, stdout, stderr,
  elapsed wall time) is supplied by an oracle `RunEnv`, one per test index;
  everything after the process returns is embedded verbatim.
- `src/unnamed/part_001` (`models/ContestResult.js`): `calculateTotals`,
  `updateProblemResult`.
- `src/unnamed/part_004` (`controllers/submissionController.js`):
  `submitSolution`'s scoring block, `updateContestResult`,
  `combineWithHarness`.
- `src/unnamed/part_003` (`controllers/contestController.js`): the per-problem
  `maxScore` computation of `joinContest`.

JS numbers are modelled as `Int` (all arithmetic here is integral), Mongo ids
and status strings as `String`, `Date` values as `Int` timestamps, and a JS
object field that may be absent (`undefined`) as an `Option`.
-/

namespace DSAContest

/-- A test case as stored in the Problem document (`testCaseSchema` plus its
implicit Mongo `_id`, here `id`). -/
structure TestCase where
  id : String
  input : String
  expectedOutput : String
  isHidden : Bool
  points : Int
deriving DecidableEq

/-- The `harshnessCode` field of a Problem: either one harness string for all
languages or a language-keyed mapping (`mongoose.Schema.Types.Mixed`). -/
inductive HarnessField where
  | str (s : String)
  | map (entries : List (String × String))
deriving DecidableEq

/-- The slice of the Problem document the judging core reads: `testCases`,
the flat `points` fallback, and the harness field. -/
structure Problem where
  testCases : List TestCase
  points : Int
  harshnessCode : HarnessField
deriving DecidableEq

/-- One element of the `testResults` array built by `CodeRunner.runCode`.
The JS result object literals in `executeTestCase` and in `runCode`'s catch
branch carry no `testCaseId` key, so that field is `Option` and always
`none` in results produced by the embedded runner. -/
structure TestResult where
  testCaseId : Option String
  passed : Bool
  executionTime : Int
  memoryUsed : Int
  output : String
  error : String
deriving DecidableEq

/-- Oracle for one sandboxed execution: the compile step's exit code (read
only by the compiled languages), the run process's exit code, captured
stdout/stderr, and the measured wall time `Date.now() - startTime`. -/
structure RunEnv where
  compileExit : Int
  exitCode : Int
  stdout : String
  stderr : String
  elapsedMs : Int

/-- JS `String.prototype.trim()`: strips leading and trailing whitespace
characters (for the ASCII inputs of the judging pipeline this agrees with
the ECMAScript whitespace set). -/
def jsTrim (s : String) : String :=
  String.mk (((s.data.dropWhile Char.isWhitespace).reverse.dropWhile Char.isWhitespace).reverse)

/-- `estimateMemoryUsage(output)`: `Math.ceil(byteLength(output)/1024)`. -/
def estimateMemoryUsage (output : String) : Int :=
  Int.ofNat ((output.utf8ByteSize + 1023) / 1024)

/-- `runPython`: resolves `{output, error}` when the process closes with exit
code 0, rejects with `Process exited with code ...` otherwise. -/
def runPython (env : RunEnv) : Except String (String × String) :=
  if env.exitCode ≠ 0 then
    Except.error ("Process exited with code " ++ toString env.exitCode ++ ": " ++ env.stderr)
  else
    Except.ok (env.stdout, env.stderr)

/-- `runJavaScript`: same close-handler as `runPython`. -/
def runJavaScript (env : RunEnv) : Except String (String × String) :=
  if env.exitCode ≠ 0 then
    Except.error ("Process exited with code " ++ toString env.exitCode ++ ": " ++ env.stderr)
  else
    Except.ok (env.stdout, env.stderr)

/-- `runCpp`: rejects with `Compilation failed` when the compile process exits
non-zero; otherwise behaves like the interpreted runners on the run process. -/
def runCpp (env : RunEnv) : Except String (String × String) :=
  if env.compileExit ≠ 0 then
    Except.error "Compilation failed"
  else if env.exitCode ≠ 0 then
    Except.error ("Process exited with code " ++ toString env.exitCode ++ ": " ++ env.stderr)
  else
    Except.ok (env.stdout, env.stderr)

/-- `runJava`: identical control flow to `runCpp` (javac then java). -/
def runJava (env : RunEnv) : Except String (String × String) :=
  if env.compileExit ≠ 0 then
    Except.error "Compilation failed"
  else if env.exitCode ≠ 0 then
    Except.error ("Process exited with code " ++ toString env.exitCode ++ ": " ++ env.stderr)
  else
    Except.ok (env.stdout, env.stderr)

/-- The `switch (language)` of `executeTestCase`; an unknown language throws
`Unsupported language`. -/
def dispatchLanguage (language : String) (env : RunEnv) : Except String (String × String) :=
  match language with
  | "python" => runPython env
  | "javascript" => runJavaScript env
  | "cpp" => runCpp env
  | "java" => runJava env
  | _ => Except.error ("Unsupported language: " ++ language)

/-- `executeTestCase`: dispatches on the language, then on a successful run
builds the result object: `passed` compares trimmed stdout with the trimmed
`expectedOutput`. -/
def executeTestCase (code language : String) (testCase : TestCase) (env : RunEnv) :
    Except String TestResult :=
  match dispatchLanguage language env with
  | Except.error e => Except.error e
  | Except.ok result =>
    Except.ok
      { testCaseId := none
        passed := jsTrim result.1 == jsTrim testCase.expectedOutput
        executionTime := env.elapsedMs
        memoryUsed := estimateMemoryUsage result.1
        output := result.1
        error := result.2 }

/-- The catch branch of `runCode`'s per-test loop: a thrown error becomes a
failed result with `executionTime 0`, empty output and the error message. -/
def handleRun (x : Except String TestResult) : TestResult :=
  match x with
  | Except.ok r => r
  | Except.error msg =>
    { testCaseId := none, passed := false, executionTime := 0
      memoryUsed := 0, output := "", error := msg }

/-- The `for (const testCase of testCases)` loop of `runCode`, carrying the
position so each iteration reads its own oracle entry. -/
def runCodeAux (code language : String) (envAt : Nat → RunEnv) :
    Nat → List TestCase → List TestResult
  | _, [] => []
  | i, tc :: rest =>
    handleRun (executeTestCase code language tc (envAt i)) ::
      runCodeAux code language envAt (i + 1) rest

/-- `CodeRunner.runCode(code, language, testCases)`: one result per test case,
in order; a per-test throw is caught and recorded, never aborting the loop. -/
def runCode (code language : String) (testCases : List TestCase) (envAt : Nat → RunEnv) :
    List TestResult :=
  runCodeAux code language envAt 0 testCases

/-- `submitSolution`'s `perTestPoints`: `testCases.map(tc => Number(tc.points) || 0)`
(points are already integral here, so the NaN guard is the identity). -/
def perTestPoints (testCases : List TestCase) : List Int :=
  testCases.map (fun tc => tc.points)

/-- `submitSolution`'s `maxScore`: the sum of `perTestPoints` — note there is
no fallback to the Problem's flat `points` here, an empty list sums to 0. -/
def maxScoreOf (testCases : List TestCase) : Int :=
  (perTestPoints testCases).sum

/-- The indexed reduce of `submitSolution`'s `score`: walking the results with
the points list in lockstep is the same as indexing `perTestPoints[idx] || 0`
(an out-of-range index reads `undefined`, hence 0). -/
def scoreAux : List TestResult → List Int → Int
  | [], _ => 0
  | r :: rs, [] => (if r.passed then 0 else 0) + scoreAux rs []
  | r :: rs, p :: ps => (if r.passed then p else 0) + scoreAux rs ps

/-- `submitSolution`'s `score`: sum of the points of the passed tests. -/
def scoreOf (testResults : List TestResult) (testCases : List TestCase) : Int :=
  scoreAux testResults (perTestPoints testCases)

/-- The status expression of `submitSolution` (used both for the response and
for the outcome handed to `updateContestResult`):
`score === maxScore ? 'accepted' : (score > 0 ? 'partial' : 'attempted')`. -/
def deriveStatus (score maxScore : Int) : String :=
  if score = maxScore then "accepted"
  else if score > 0 then "partial"
  else "attempted"

/-- One entry of `ContestResult.problemResults` (the embedded subdocument).
`firstAcceptedAt` is a nullable `Date`; `none` models null/undefined, and a
JS `Date` object is always truthy, matching `Option.isNone` as the falsiness
test in `!problemResult.firstAcceptedAt`. -/
structure ProblemResult where
  problemId : String
  score : Int
  maxScore : Int
  timeSpent : Int
  submissionCount : Int
  firstAcceptedAt : Option Int
  status : String
deriving DecidableEq

/-- The slice of the `ContestResult` document the aggregator touches. -/
structure ContestResult where
  problemResults : List ProblemResult
  totalScore : Int
  totalTime : Int
deriving DecidableEq

/-- `calculateTotals`: recomputes `totalScore`/`totalTime` as sums over the
problem results. -/
def calculateTotals (cr : ContestResult) : ContestResult :=
  { cr with
    totalScore := (cr.problemResults.map (fun r => r.score)).sum
    totalTime := (cr.problemResults.map (fun r => r.timeSpent)).sum }

/-- The mutation block of `updateProblemResult`'s found-branch:
`score = Math.max(score, newScore)`, `timeSpent += ...`,
`submissionCount += 1`, `status = status` (unconditional overwrite), and
`firstAcceptedAt` set to `new Date()` only when `isFirstAccept` holds and it
was not already set. -/
def applyUpdate (p : ProblemResult) (score timeSpent : Int) (status : String)
    (isFirstAccept : Bool) (now : Int) : ProblemResult :=
  { p with
    score := max p.score score
    timeSpent := p.timeSpent + timeSpent
    submissionCount := p.submissionCount + 1
    status := status
    firstAcceptedAt :=
      if isFirstAccept && p.firstAcceptedAt.isNone then some now
      else p.firstAcceptedAt }

/-- In-place mutation of the first array element matching the problem id, as
`this.problemResults.find(...)` aliases that element. -/
def updateFirst (l : List ProblemResult) (pid : String)
    (f : ProblemResult → ProblemResult) : List ProblemResult :=
  match l with
  | [] => []
  | p :: ps => if p.problemId == pid then f p :: ps else p :: updateFirst ps pid f

/-- `ContestResult.updateProblemResult(problemId, score, timeSpent, status,
isFirstAccept)`: updates the matching entry in place if one exists, otherwise
pushes a synthesized entry with the hard-coded `maxScore: 100` (the source
comments `Default max score, should be set from problem`); finally
recomputes the totals. -/
def updateProblemResult (cr : ContestResult) (pid : String) (score timeSpent : Int)
    (status : String) (isFirstAccept : Bool) (now : Int) : ContestResult :=
  let prs :=
    if (cr.problemResults.find? (fun p => p.problemId == pid)).isSome then
      updateFirst cr.problemResults pid
        (fun p => applyUpdate p score timeSpent status isFirstAccept now)
    else
      cr.problemResults ++
        [{ problemId := pid
           score := score
           maxScore := 100
           timeSpent := timeSpent
           submissionCount := 1
           firstAcceptedAt := if isFirstAccept then some now else none
           status := status }]
  calculateTotals { cr with problemResults := prs }

/-- Arguments of one `updateProblemResult` call, for iterating the method. -/
structure UpdateArgs where
  score : Int
  timeSpent : Int
  status : String
  isFirstAccept : Bool
  now : Int
deriving DecidableEq

/-- Repeated application of `updateProblemResult` for one problem id. -/
def applyAll (cr : ContestResult) (pid : String) : List UpdateArgs → ContestResult
  | [] => cr
  | u :: us =>
    applyAll (updateProblemResult cr pid u.score u.timeSpent u.status u.isFirstAccept u.now)
      pid us

/-- The per-problem `maxScore` computed when `joinContest` (and likewise
`updateContestResult`'s creation path) builds initial problem results:
test-case point sum when the fetched problem has test cases, else the
problem's flat `points`, else the contest entry's points. -/
def joinContestMaxScore (contestPoints : Int) (full : Option Problem) : Int :=
  match full with
  | none => contestPoints
  | some pr =>
    if pr.testCases.length > 0 then maxScoreOf pr.testCases else pr.points

/-- The `{score, totalExecutionTime, status}` object `submitSolution` passes
to `updateContestResult`. -/
structure SubmissionOutcome where
  score : Int
  totalExecutionTime : Int
  status : String
deriving DecidableEq

/-- Builds that object from the graded results, exactly as `submitSolution`
does at its call site. -/
def submissionOutcomeOf (testResults : List TestResult) (testCases : List TestCase) :
    SubmissionOutcome :=
  { score := scoreOf testResults testCases
    totalExecutionTime := (testResults.map (fun r => r.executionTime)).sum
    status := deriveStatus (scoreOf testResults testCases) (maxScoreOf testCases) }

/-- Oracle for the three persistence operations `updateContestResult` uses:
`ContestResult.findOne`, `ContestResult.create`, `contestResult.save`.  Each
may throw (modelled as `Except.error`) or produce a value. -/
structure StoreEnv where
  findOutcome : Except String (Option ContestResult)
  createOutcome : Except String ContestResult
  saveFails : Bool

/-- The status recomputed inside `updateContestResult` (part_004 lines
305-308) from the submission outcome it was handed. -/
def aggregatorStatusOf (sub : SubmissionOutcome) : String :=
  if sub.status == "accepted" then "accepted"
  else if sub.score > 0 then "partial"
  else "attempted"

/-- `updateContestResult`, tracking the persisted store state through each
path of its try block.  `ContestResult.findOne` may throw (store untouched);
when it returns no record, `ContestResult.create` persists the new initial
record immediately — so if the later `save` throws, the store keeps that
created record, while on the existing-record path a failed `save` leaves the
prior state.  The surrounding catch only logs, so every path returns
normally and nothing is reported to the caller. -/
def updateContestResult (persisted : Option ContestResult) (store : StoreEnv)
    (pid : String) (sub : SubmissionOutcome) (now : Int) : Option ContestResult :=
  match store.findOutcome with
  | Except.error _ => persisted
  | Except.ok (some cr) =>
    let cr2 := updateProblemResult cr pid sub.score sub.totalExecutionTime
      (aggregatorStatusOf sub) (sub.status == "accepted") now
    if store.saveFails then persisted else some cr2
  | Except.ok none =>
    match store.createOutcome with
    | Except.error _ => persisted
    | Except.ok created =>
      let cr2 := updateProblemResult created pid sub.score sub.totalExecutionTime
        (aggregatorStatusOf sub) (sub.status == "accepted") now
      if store.saveFails then some created else some cr2

/-- `combineWithHarness`'s harness resolution: a mapping is indexed by the
language (`String(raw[language] || '')`), a plain string is used as-is; the
result is trimmed. -/
def resolveHarness (raw : HarnessField) (language : String) : String :=
  match raw with
  | HarnessField.map entries => jsTrim ((entries.lookup language).getD "")
  | HarnessField.str s => jsTrim s

/-- `combineWithHarness(userCode, language, problem)`: empty harness returns
the user code unchanged; the four known languages append the harness between
comment markers; any other language falls through to `return userCode`. -/
def combineWithHarness (userCode language : String) (problem : Problem) : String :=
  let harness := resolveHarness problem.harshnessCode language
  if harness = "" then userCode
  else if language = "javascript" then
    userCode ++ "\n// --- HARNESS START ---\n" ++ harness ++ "\n// --- HARNESS END ---"
  else if language = "python" then
    userCode ++ "\n# --- HARNESS START ---\n" ++ harness ++ "\n# --- HARNESS END ---"
  else if language = "cpp" then
    userCode ++ "\n// --- HARNESS START ---\n" ++ harness ++ "\n// --- HARNESS END ---"
  else if language = "java" then
    userCode ++ "\n// --- HARNESS START ---\n" ++ harness ++ "\n// --- HARNESS END ---"
  else userCode

/-- The success response body of `submitSolution` and the follow-on persisted
state. -/
structure SubmitResponse where
  success : Bool
  message : String
  status : String
  score : Int
  maxScore : Int
  testResults : List TestResult
deriving DecidableEq

/-- `submitSolution`'s grading path: combine the harness, run the code, score
it, fire `updateContestResult`, and answer 200 with the computed data.  The
response is built from the graded results alone. -/
def submitSolution (code language : String) (problem : Problem) (envAt : Nat → RunEnv)
    (store : StoreEnv) (persisted : Option ContestResult) (pid : String) (now : Int) :
    SubmitResponse × Option ContestResult :=
  let combinedCode := combineWithHarness code language problem
  let testResults := runCode combinedCode language problem.testCases envAt
  let maxScore := maxScoreOf problem.testCases
  let score := scoreOf testResults problem.testCases
  let persisted2 :=
    updateContestResult persisted store pid (submissionOutcomeOf testResults problem.testCases) now
  ({ success := true
     message := "Solution submitted successfully"
     status := deriveStatus score maxScore
     score := score
     maxScore := maxScore
     testResults := testResults }, persisted2)

/-! ### Helper lemmas -/

/-- An exhausted points list contributes nothing (out-of-range indexing). -/
lemma scoreAux_nil (rs : List TestResult) : scoreAux rs [] = 0 := by
  induction rs with
  | nil => rfl
  | cons r rs ih => simp [scoreAux, ih]

/-- The score is nonnegative when every point value is. -/
lemma scoreAux_nonneg (rs : List TestResult) (ps : List Int)
    (hps : ∀ p ∈ ps, 0 ≤ p) : 0 ≤ scoreAux rs ps := by
  induction rs generalizing ps with
  | nil => simp [scoreAux]
  | cons r rs ih =>
    cases ps with
    | nil => simp [scoreAux_nil, scoreAux]
    | cons p ps =>
      have h1 : 0 ≤ p := hps p (by simp)
      have h2 : 0 ≤ scoreAux rs ps := ih ps (fun q hq => hps q (by simp [hq]))
      by_cases hr : r.passed <;> simp [scoreAux, hr] <;> omega

/-- The score never exceeds the sum of the points when points are
nonnegative. -/
lemma scoreAux_le_sum (rs : List TestResult) (ps : List Int)
    (hps : ∀ p ∈ ps, 0 ≤ p) : scoreAux rs ps ≤ ps.sum := by
  induction rs generalizing ps with
  | nil => simpa [scoreAux] using List.sum_nonneg hps
  | cons r rs ih =>
    cases ps with
    | nil => simp [scoreAux_nil, scoreAux]
    | cons p ps =>
      have h1 : 0 ≤ p := hps p (by simp)
      have h2 : scoreAux rs ps ≤ ps.sum := ih ps (fun q hq => hps q (by simp [hq]))
      by_cases hr : r.passed <;> simp [scoreAux, hr, List.sum_cons] <;> omega

/-- The indexed reduce equals the sum over the zipped (result, points)
pairs: the score counts exactly the points of the passed indices. -/
lemma scoreAux_eq_zip_sum (rs : List TestResult) (ps : List Int) :
    scoreAux rs ps =
      ((rs.zip ps).map (fun rp => if rp.1.passed then rp.2 else 0)).sum := by
  induction rs generalizing ps with
  | nil => simp [scoreAux]
  | cons r rs ih =>
    cases ps with
    | nil => simp [scoreAux_nil, scoreAux]
    | cons p ps => simp [scoreAux, List.zip_cons_cons, ih]

/-- When no test passed, the score is zero. -/
lemma scoreAux_eq_zero_of_failed (rs : List TestResult) (ps : List Int)
    (h : ∀ r ∈ rs, r.passed = false) : scoreAux rs ps = 0 := by
  induction rs generalizing ps with
  | nil => simp [scoreAux]
  | cons r rs ih =>
    have hr : r.passed = false := h r (by simp)
    have ht : ∀ q ∈ rs, q.passed = false := fun q hq => h q (by simp [hq])
    cases ps with
    | nil => simp [scoreAux_nil, scoreAux]
    | cons p ps => simp [scoreAux, hr, ih _ ht]

/-- The runner produces one result per test case. -/
lemma runCodeAux_length (code language : String) (envAt : Nat → RunEnv)
    (i0 : Nat) (tcs : List TestCase) :
    (runCodeAux code language envAt i0 tcs).length = tcs.length := by
  induction tcs generalizing i0 with
  | nil => rfl
  | cons tc rest ih => simp [runCodeAux, ih]

/-- The i-th result is the (caught) execution of the i-th test case against
the i-th oracle entry. -/
lemma runCodeAux_getD (code language : String) (envAt : Nat → RunEnv)
    (tcs : List TestCase) (i0 i : Nat) (hi : i < tcs.length)
    (dtc : TestCase) (dtr : TestResult) :
    (runCodeAux code language envAt i0 tcs).getD i dtr =
      handleRun (executeTestCase code language (tcs.getD i dtc) (envAt (i0 + i))) := by
  induction tcs generalizing i0 i with
  | nil => simp at hi
  | cons tc rest ih =>
    cases i with
    | zero => simp [runCodeAux]
    | succ j =>
      have hj : j < rest.length := by simpa using hi
      have := ih (i0 + 1) j hj
      simpa [runCodeAux, Nat.add_assoc, Nat.add_comm 1 j] using this

/-- Results built by `executeTestCase` (and the catch branch) never carry a
`testCaseId`: the source object literals have no such key. -/
lemma testCaseId_handleRun (code language : String) (tc : TestCase) (env : RunEnv) :
    (handleRun (executeTestCase code language tc env)).testCaseId = none := by
  unfold executeTestCase
  cases dispatchLanguage language env <;> simp [handleRun]

/-- With a failing compile step, every C++ execution rejects with the uniform
`Compilation failed` message, which the loop's catch turns into a failed
result. -/
lemma runCodeAux_cpp_compile_fail (code : String) (envAt : Nat → RunEnv)
    (hc : ∀ i, (envAt i).compileExit ≠ 0) (tcs : List TestCase) (i0 : Nat) :
    ∀ r ∈ runCodeAux code "cpp" envAt i0 tcs,
      r.passed = false ∧ r.error = "Compilation failed" := by
  induction tcs generalizing i0 with
  | nil => simp [runCodeAux]
  | cons tc rest ih =>
    intro r hr
    simp only [runCodeAux, List.mem_cons] at hr
    rcases hr with hr | hr
    · subst hr
      simp [executeTestCase, dispatchLanguage, runCpp, hc i0, handleRun]
    · exact ih (i0 + 1) r hr

/-- `applyUpdate` leaves the problem id untouched. -/
lemma applyUpdate_problemId (p : ProblemResult) (s t : Int) (st : String)
    (fa : Bool) (now : Int) : (applyUpdate p s t st fa now).problemId = p.problemId := rfl

/-- Updating the first matching element in place: the element `find?` sees
afterwards is the transformed one, provided the transform preserves ids. -/
lemma find?_updateFirst (l : List ProblemResult) (pid : String)
    (f : ProblemResult → ProblemResult) (hf : ∀ p, (f p).problemId = p.problemId)
    (old : ProblemResult) (h : l.find? (fun p => p.problemId == pid) = some old) :
    (updateFirst l pid f).find? (fun p => p.problemId == pid) = some (f old) := by
  induction l with
  | nil => simp at h
  | cons q qs ih =>
    cases hq : (q.problemId == pid) with
    | true =>
      simp [List.find?, hq] at h
      subst h
      simp [updateFirst, if_pos hq, List.find?, hf q, hq]
    | false =>
      simp [List.find?, hq] at h
      simp [updateFirst, hq, List.find?, hf q, ih h]

/-- One `updateProblemResult` call on a record whose entry exists transforms
exactly that entry by `applyUpdate`. -/
lemma find?_updateProblemResult (cr : ContestResult) (pid : String)
    (s t : Int) (st : String) (fa : Bool) (now : Int) (old : ProblemResult)
    (h : cr.problemResults.find? (fun p => p.problemId == pid) = some old) :
    (updateProblemResult cr pid s t st fa now).problemResults.find?
        (fun p => p.problemId == pid) = some (applyUpdate old s t st fa now) := by
  unfold updateProblemResult calculateTotals
  simp only [h, Option.isSome_some, if_true]
  exact find?_updateFirst cr.problemResults pid
    (fun p => applyUpdate p s t st fa now) (fun p => rfl) old h

/-! ### Claim theorems -/

/-- C1 (counterexample): an existing ProblemResult already `accepted` (full
score 100, firstAcceptedAt set) receives a further submission with score 0,
whose derived status is `attempted`; `updateProblemResult` overwrites the
stored status with it, so the status regresses away from `accepted`,
contradicting the claim that `accepted` is terminal. -/
theorem C1_counterexample :
    (((updateProblemResult
        { problemResults :=
            [{ problemId := "p1", score := 100, maxScore := 100, timeSpent := 10,
               submissionCount := 1, firstAcceptedAt := some 50, status := "accepted" }],
          totalScore := 100, totalTime := 10 }
        "p1" 0 5 (deriveStatus 0 100) false 60).problemResults.map
      (fun p => p.status)) = ["attempted"]) ∧ "attempted" ≠ "accepted" := by
  constructor
  · decide
  · decide

/-- C1 (amended): `updateProblemResult` sets the stored status to the new
submission's status argument unconditionally — whatever the previous status
(including `accepted`), the entry found after the update carries exactly the
incoming status, so `accepted` is not terminal and regresses whenever a later
submission's derived status is lower. -/
theorem C1_amended (cr : ContestResult) (pid : String) (s t : Int) (st : String)
    (fa : Bool) (now : Int) (old : ProblemResult)
    (h : cr.problemResults.find? (fun p => p.problemId == pid) = some old) :
    ∃ q, (updateProblemResult cr pid s t st fa now).problemResults.find?
        (fun p => p.problemId == pid) = some q ∧ q.status = st := by
  exact ⟨applyUpdate old s t st fa now, find?_updateProblemResult cr pid s t st fa now old h, rfl⟩

/-- Concrete fixture for C1's witness: an already-accepted entry. -/
def prFixtureC1 : ProblemResult :=
  { problemId := "p1", score := 100, maxScore := 100, timeSpent := 10,
    submissionCount := 1, firstAcceptedAt := some 50, status := "accepted" }

/-- Concrete fixture for C1's witness: the contest result holding it. -/
def crFixtureC1 : ContestResult :=
  { problemResults := [prFixtureC1], totalScore := 100, totalTime := 10 }

/-- C1 (witness): the amended theorem applied to a concrete `accepted` entry
hit by an `attempted` submission. -/
theorem C1_witness :
    (crFixtureC1.problemResults.find? (fun p => p.problemId == "p1") = some prFixtureC1) ∧
    (∃ q, (updateProblemResult crFixtureC1 "p1" 0 5 "attempted" false 60).problemResults.find?
        (fun p => p.problemId == "p1") = some q ∧ q.status = "attempted") :=
  ⟨by decide,
   C1_amended crFixtureC1 "p1" 0 5 "attempted" false 60 prFixtureC1 (by decide)⟩

/-- C5 (theorem): iterating `updateProblemResult` on an existing
ProblemResult never lowers its score, raises `submissionCount` by exactly one
per application, adds the submissions' `timeSpent` values, and preserves a
`firstAcceptedAt` that was already set. -/
theorem C5_invariants (cr : ContestResult) (pid : String) (us : List UpdateArgs)
    (old : ProblemResult)
    (h : cr.problemResults.find? (fun p => p.problemId == pid) = some old) :
    ∃ q, (applyAll cr pid us).problemResults.find?
        (fun p => p.problemId == pid) = some q ∧
      old.score ≤ q.score ∧
      q.submissionCount = old.submissionCount + us.length ∧
      q.timeSpent = old.timeSpent + (us.map (fun u => u.timeSpent)).sum ∧
      ∀ ts, old.firstAcceptedAt = some ts → q.firstAcceptedAt = some ts := by
  induction us generalizing cr old with
  | nil =>
    exact ⟨old, by simpa [applyAll] using h, le_refl _, by simp, by simp, fun ts hts => hts⟩
  | cons u us ih =>
    have h1 := find?_updateProblemResult cr pid u.score u.timeSpent u.status
      u.isFirstAccept u.now old h
    obtain ⟨q, hq, hsc, hcnt, htime, hfa⟩ := ih _ _ h1
    refine ⟨q, by simpa [applyAll] using hq, ?_, ?_, ?_, ?_⟩
    · exact le_trans (le_max_left _ _) hsc
    · simp only [applyUpdate] at hcnt
      simp [hcnt, List.length_cons]
      omega
    · simp only [applyUpdate] at htime
      simp [htime, List.sum_cons]
      omega
    · intro ts hts
      apply hfa
      simp [applyUpdate, hts]

/-- Concrete fixture for C5's witness: a partial entry with
`firstAcceptedAt` already set. -/
def prFixtureC5 : ProblemResult :=
  { problemId := "p1", score := 30, maxScore := 100, timeSpent := 7,
    submissionCount := 3, firstAcceptedAt := some 11, status := "partial" }

/-- Concrete fixture for C5's witness: the contest result holding it. -/
def crFixtureC5 : ContestResult :=
  { problemResults := [prFixtureC5], totalScore := 30, totalTime := 7 }

/-- Concrete fixture for C5's witness: two further submissions. -/
def usFixtureC5 : List UpdateArgs :=
  [{ score := 40, timeSpent := 5, status := "partial", isFirstAccept := false, now := 20 },
   { score := 20, timeSpent := 4, status := "attempted", isFirstAccept := false, now := 21 }]

/-- C5 (witness): two submissions (scores 40 then 20) on an entry with score
30 and `firstAcceptedAt` already set. -/
theorem C5_witness :
    (crFixtureC5.problemResults.find? (fun p => p.problemId == "p1") = some prFixtureC5) ∧
    (∃ q, (applyAll crFixtureC5 "p1" usFixtureC5).problemResults.find?
        (fun p => p.problemId == "p1") = some q ∧
      prFixtureC5.score ≤ q.score ∧
      q.submissionCount = prFixtureC5.submissionCount + usFixtureC5.length ∧
      q.timeSpent = prFixtureC5.timeSpent + (usFixtureC5.map (fun u => u.timeSpent)).sum ∧
      ∀ ts, prFixtureC5.firstAcceptedAt = some ts → q.firstAcceptedAt = some ts) :=
  ⟨by decide, C5_invariants crFixtureC5 "p1" usFixtureC5 prFixtureC5 (by decide)⟩

/-- C6 (evaluation): on a ContestResult with no entry for the problem,
`updateProblemResult` synthesizes one whose `maxScore` is the hard-coded
constant 100, independent of any problem's test case points — the source
comments the line with `Default max score, should be set from problem`. -/
theorem C6_eval :
    ((updateProblemResult { problemResults := [], totalScore := 0, totalTime := 0 }
        "p1" 40 10 "partial" false 0).problemResults.map
      (fun p => (p.problemId, p.maxScore))) = [("p1", 100)] := by
  decide

/-- C2 (counterexample): with an empty test case list, `score = maxScore = 0`
and the status expression yields `accepted`, while the claim requires that
`maxScore == 0` never yields `accepted` (the spec's scenario calls for
`attempted`). -/
theorem C2_counterexample :
    maxScoreOf ([] : List TestCase) = 0 ∧
    scoreOf ([] : List TestResult) ([] : List TestCase) = 0 ∧
    deriveStatus (scoreOf [] []) (maxScoreOf []) = "accepted" ∧
    "accepted" ≠ "attempted" := by
  refine ⟨by decide, by decide, by decide, by decide⟩

/-- C2 (amended): when every test case's points are nonnegative, the status
derived by `submitSolution` is `accepted` iff `score == maxScore` — with no
`maxScore > 0` guard, so `maxScore == 0` also yields `accepted`; `partial`
iff `0 < score < maxScore`; and `attempted` iff `score == 0` and
`maxScore > 0` (whether any test ran is irrelevant). -/
theorem C2_amended (results : List TestResult) (tcs : List TestCase)
    (hpts : ∀ tc ∈ tcs, 0 ≤ tc.points) :
    (deriveStatus (scoreOf results tcs) (maxScoreOf tcs) = "accepted" ↔
      scoreOf results tcs = maxScoreOf tcs) ∧
    (deriveStatus (scoreOf results tcs) (maxScoreOf tcs) = "partial" ↔
      0 < scoreOf results tcs ∧ scoreOf results tcs < maxScoreOf tcs) ∧
    (deriveStatus (scoreOf results tcs) (maxScoreOf tcs) = "attempted" ↔
      scoreOf results tcs = 0 ∧ 0 < maxScoreOf tcs) := by
  have hn : ∀ p ∈ perTestPoints tcs, 0 ≤ p := by
    intro p hp
    simp only [perTestPoints, List.mem_map] at hp
    obtain ⟨tc, htc, rfl⟩ := hp
    exact hpts tc htc
  have h0 : 0 ≤ scoreOf results tcs := scoreAux_nonneg _ _ hn
  have hle : scoreOf results tcs ≤ maxScoreOf tcs := scoreAux_le_sum _ _ hn
  unfold deriveStatus
  refine ⟨?_, ?_, ?_⟩ <;> split_ifs with h1 h2 <;>
    simp_all <;> omega

/-- Concrete fixture for C2's witness: two test cases worth 40 and 60. -/
def tcsFixtureC2 : List TestCase :=
  [{ id := "a", input := "", expectedOutput := "1", isHidden := false, points := 40 },
   { id := "b", input := "", expectedOutput := "2", isHidden := false, points := 60 }]

/-- Concrete fixture for C2's witness: only the second test passed. -/
def rsFixtureC2 : List TestResult :=
  [{ testCaseId := none, passed := false, executionTime := 1, memoryUsed := 0,
     output := "", error := "" },
   { testCaseId := none, passed := true, executionTime := 1, memoryUsed := 0,
     output := "2", error := "" }]

/-- C2 (witness): the spec's own scenario — points `[40, 60]`, only the
second test passes — gives score 60, maxScore 100 and status `partial`, and
the amended `partial` biconditional holds there. -/
theorem C2_witness :
    (∀ tc ∈ tcsFixtureC2, 0 ≤ tc.points) ∧
    scoreOf rsFixtureC2 tcsFixtureC2 = 60 ∧
    maxScoreOf tcsFixtureC2 = 100 ∧
    (deriveStatus (scoreOf rsFixtureC2 tcsFixtureC2) (maxScoreOf tcsFixtureC2) = "partial" ↔
      0 < scoreOf rsFixtureC2 tcsFixtureC2 ∧
        scoreOf rsFixtureC2 tcsFixtureC2 < maxScoreOf tcsFixtureC2) :=
  ⟨by decide, by decide, by decide, (C2_amended rsFixtureC2 tcsFixtureC2 (by decide)).2.1⟩

/-- C3 (counterexample): a Problem with no test cases and flat
`points = 100` — the submission `maxScore` computed by `submitSolution` is 0,
not the flat 100 the claim's fallback requires. -/
theorem C3_counterexample :
    maxScoreOf ({ testCases := [], points := 100,
                  harshnessCode := HarnessField.str "" } : Problem).testCases = 0 ∧
    ({ testCases := [], points := 100,
       harshnessCode := HarnessField.str "" } : Problem).points = 100 ∧
    (0 : Int) ≠ 100 := by
  refine ⟨by decide, by decide, by decide⟩

/-- C3 (amended): `submitSolution` always takes `maxScore` as the sum of the
test cases' points — an empty list yields 0, with no fallback to the flat
`points` (that fallback exists only where ContestResults are created, e.g.
`joinContest`); the score is the sum of the points of exactly the passed
indices. -/
theorem C3_amended (results : List TestResult) (tcs : List TestCase)
    (contestPoints : Int) (pr : Problem) :
    maxScoreOf tcs = (tcs.map (fun tc => tc.points)).sum ∧
    maxScoreOf ([] : List TestCase) = 0 ∧
    (scoreOf results tcs =
      ((results.zip (tcs.map (fun tc => tc.points))).map
        (fun rp => if rp.1.passed then rp.2 else 0)).sum) ∧
    (pr.testCases = [] → joinContestMaxScore contestPoints (some pr) = pr.points) := by
  refine ⟨rfl, rfl, ?_, ?_⟩
  · exact scoreAux_eq_zip_sum results (perTestPoints tcs)
  · intro hempty
    simp [joinContestMaxScore, hempty]

/-- Concrete fixture for C3's witness: an empty-test-case problem with flat
points 100. -/
def prFixtureC3 : Problem :=
  { testCases := [], points := 100, harshnessCode := HarnessField.str "" }

/-- C3 (witness): the amended theorem at the empty problem — the submission
maxScore is 0 while `joinContest` would record the flat 100. -/
theorem C3_witness :
    prFixtureC3.testCases = [] ∧
    maxScoreOf ([] : List TestCase) = 0 ∧
    joinContestMaxScore 70 (some prFixtureC3) = prFixtureC3.points :=
  ⟨by decide, (C3_amended [] [] 70 prFixtureC3).2.1,
   (C3_amended [] [] 70 prFixtureC3).2.2.2 (by decide)⟩

/-- Concrete fixture for C4: one C++ test case worth 10 points. -/
def tcsFixtureC4 : List TestCase :=
  [{ id := "a", input := "", expectedOutput := "7", isHidden := false, points := 10 }]

/-- Concrete fixture for C4: the compile step exits non-zero. -/
def envFixtureC4 : RunEnv :=
  { compileExit := 1, exitCode := 0, stdout := "", stderr := "", elapsedMs := 0 }

/-- C4 (counterexample): a C++ submission whose compile step fails gets a
uniform `Compilation failed` result per test case (that half of the claim
holds), but the overall status `submitSolution` reports is the score-derived
`attempted`, not `compilation_error`. -/
theorem C4_counterexample :
    ((runCode "c" "cpp" tcsFixtureC4 (fun _ => envFixtureC4)).map
        (fun r => (r.passed, r.error))) = [(false, "Compilation failed")] ∧
    deriveStatus (scoreOf (runCode "c" "cpp" tcsFixtureC4 (fun _ => envFixtureC4)) tcsFixtureC4)
        (maxScoreOf tcsFixtureC4) = "attempted" ∧
    "attempted" ≠ "compilation_error" := by
  refine ⟨by decide, by decide, by decide⟩

/-- C4 (amended): whenever every compile step of a C++ submission exits
non-zero, every TestResult has `passed = false` with the same
`Compilation failed` message, the score is 0, and the submission's overall
status is the score-derived `attempted` (given a non-zero maxScore) — never
`compilation_error`, which the grading path cannot produce. -/
theorem C4_amended (code : String) (tcs : List TestCase) (envAt : Nat → RunEnv)
    (hc : ∀ i, (envAt i).compileExit ≠ 0) (hm : maxScoreOf tcs ≠ 0) :
    (∀ r ∈ runCode code "cpp" tcs envAt,
      r.passed = false ∧ r.error = "Compilation failed") ∧
    scoreOf (runCode code "cpp" tcs envAt) tcs = 0 ∧
    deriveStatus (scoreOf (runCode code "cpp" tcs envAt) tcs) (maxScoreOf tcs) =
      "attempted" ∧
    deriveStatus (scoreOf (runCode code "cpp" tcs envAt) tcs) (maxScoreOf tcs) ≠
      "compilation_error" := by
  have hall := runCodeAux_cpp_compile_fail code envAt hc tcs 0
  have hscore : scoreOf (runCode code "cpp" tcs envAt) tcs = 0 :=
    scoreAux_eq_zero_of_failed _ _ (fun r hr => (hall r hr).1)
  refine ⟨hall, hscore, ?_, ?_⟩
  · rw [hscore]
    unfold deriveStatus
    rw [if_neg (by omega), if_neg (by omega)]
  · rw [hscore]
    unfold deriveStatus
    rw [if_neg (by omega), if_neg (by omega)]
    decide

/-- C4 (witness): the amended theorem at the concrete failing-compile
fixture. -/
theorem C4_witness :
    (envFixtureC4.compileExit ≠ 0 ∧ maxScoreOf tcsFixtureC4 ≠ 0) ∧
    deriveStatus (scoreOf (runCode "c" "cpp" tcsFixtureC4 (fun _ => envFixtureC4)) tcsFixtureC4)
        (maxScoreOf tcsFixtureC4) = "attempted" :=
  ⟨⟨by decide, by decide⟩,
   (C4_amended "c" tcsFixtureC4 (fun _ => envFixtureC4)
     (fun _ => (by decide : envFixtureC4.compileExit ≠ 0)) (by decide)).2.2.1⟩

/-- Concrete fixture for C7: expected output `"7\n"`. -/
def tcFixtureC7 : TestCase :=
  { id := "a", input := "", expectedOutput := "7\n", isHidden := false, points := 1 }

/-- Concrete fixture for C7: the process prints matching output `"  7  "`
but exits with code 1. -/
def envFixtureC7 : RunEnv :=
  { compileExit := 0, exitCode := 1, stdout := "  7  ", stderr := "boom", elapsedMs := 3 }

/-- C7 (counterexample): a Python run that prints `"  7  "` (trim-equal to
the expected `"7\n"`) but exits non-zero is judged `passed = false`: the
close handler rejects on any non-zero exit code before the output comparison
is reached, so the biconditional fails on that exit path. -/
theorem C7_counterexample :
    jsTrim envFixtureC7.stdout = jsTrim tcFixtureC7.expectedOutput ∧
    ((runCode "c" "python" [tcFixtureC7] (fun _ => envFixtureC7)).map
      (fun r => r.passed)) = [false] := by
  refine ⟨by decide, by decide⟩

/-- C7 (amended): for an interpreted run, `passed` is true iff the process
exited with code 0 AND the trimmed stdout equals the trimmed
`expectedOutput`; on a non-zero exit the rejection is caught and recorded as
a failed result regardless of the printed output. -/
theorem C7_amended (code : String) (tc : TestCase) (env : RunEnv) :
    ((runCode code "python" [tc] (fun _ => env)).map (fun r => r.passed)) =
      [(env.exitCode == 0) && (jsTrim env.stdout == jsTrim tc.expectedOutput)] := by
  by_cases h : env.exitCode = 0 <;>
    simp [runCode, runCodeAux, executeTestCase, dispatchLanguage, runPython, handleRun, h]

/-- Concrete fixture for C8: one test case with id `"a"`. -/
def tcFixtureC8 : TestCase :=
  { id := "a", input := "", expectedOutput := "7", isHidden := false, points := 1 }

/-- Concrete fixture for C8: a clean passing run. -/
def envFixtureC8 : RunEnv :=
  { compileExit := 0, exitCode := 0, stdout := "7", stderr := "", elapsedMs := 2 }

/-- C8 (counterexample): the runner's result objects carry no `testCaseId`
key at all — for the test case with id `"a"`, the produced result's
`testCaseId` is absent (`none`), not equal to the test case's id as the
claim requires. -/
theorem C8_counterexample :
    ((runCode "c" "python" [tcFixtureC8] (fun _ => envFixtureC8)).map
        (fun r => r.testCaseId)) = [none] ∧
    (none : Option String) ≠ some tcFixtureC8.id := by
  refine ⟨by decide, by decide⟩

/-- C8 (amended): the graded result list always has exactly one entry per
test case, the i-th result is the (caught) execution of the i-th test case
in declared order — but no result carries a `testCaseId`: the field is never
set by the runner. -/
theorem C8_amended (code language : String) (tcs : List TestCase) (envAt : Nat → RunEnv) :
    (runCode code language tcs envAt).length = tcs.length ∧
    ∀ i, i < tcs.length → ∀ dtc dtr,
      (runCode code language tcs envAt).getD i dtr =
        handleRun (executeTestCase code language (tcs.getD i dtc) (envAt i)) ∧
      ((runCode code language tcs envAt).getD i dtr).testCaseId = none := by
  refine ⟨runCodeAux_length code language envAt 0 tcs, ?_⟩
  intro i hi dtc dtr
  have hg := runCodeAux_getD code language envAt tcs 0 i hi dtc dtr
  simp only [Nat.zero_add] at hg
  exact ⟨hg, by rw [runCode, hg]; exact testCaseId_handleRun _ _ _ _⟩

/-- C8 (witness): the amended theorem at the one-test fixture, index 0. -/
theorem C8_witness :
    (0 < ([tcFixtureC8] : List TestCase).length) ∧
    (runCode "c" "python" [tcFixtureC8] (fun _ => envFixtureC8)).length =
      ([tcFixtureC8] : List TestCase).length ∧
    ((runCode "c" "python" [tcFixtureC8] (fun _ => envFixtureC8)).getD 0
        { testCaseId := some "x", passed := true, executionTime := 0, memoryUsed := 0,
          output := "", error := "" }).testCaseId = none :=
  ⟨by decide,
   (C8_amended "c" "python" [tcFixtureC8] (fun _ => envFixtureC8)).1,
   ((C8_amended "c" "python" [tcFixtureC8] (fun _ => envFixtureC8)).2 0 (by decide)
     tcFixtureC8
     { testCaseId := some "x", passed := true, executionTime := 0, memoryUsed := 0,
       output := "", error := "" }).2⟩

/-- Concrete fixture for C9: a problem whose harness is the plain non-empty
string `"print(1)"`. -/
def prFixtureC9 : Problem :=
  { testCases := [], points := 0, harshnessCode := HarnessField.str "print(1)" }

/-- C9 (counterexample): for the unsupported language `"ruby"` with a
non-empty resolved harness, `combineWithHarness` silently returns the user
code unchanged — a silent no-op that drops the harness, not a rejected
configuration error. -/
theorem C9_counterexample :
    resolveHarness prFixtureC9.harshnessCode "ruby" ≠ "" ∧
    combineWithHarness "user" "ruby" prFixtureC9 = "user" := by
  refine ⟨by decide, by decide⟩

/-- C9 (amended): for each of the four supported languages with a non-empty
(after trimming) plain-string harness, `combineWithHarness` appends the
harness between the language's comment markers; for every other language it
silently returns the user code unchanged (there is no error path). -/
theorem C9_amended (userCode hs : String) (pb : Problem)
    (hpb : pb.harshnessCode = HarnessField.str hs) (hne : jsTrim hs ≠ "") :
    combineWithHarness userCode "javascript" pb =
      userCode ++ "\n// --- HARNESS START ---\n" ++ jsTrim hs ++ "\n// --- HARNESS END ---" ∧
    combineWithHarness userCode "python" pb =
      userCode ++ "\n# --- HARNESS START ---\n" ++ jsTrim hs ++ "\n# --- HARNESS END ---" ∧
    combineWithHarness userCode "cpp" pb =
      userCode ++ "\n// --- HARNESS START ---\n" ++ jsTrim hs ++ "\n// --- HARNESS END ---" ∧
    combineWithHarness userCode "java" pb =
      userCode ++ "\n// --- HARNESS START ---\n" ++ jsTrim hs ++ "\n// --- HARNESS END ---" ∧
    ∀ lang, lang ∉ (["javascript", "python", "cpp", "java"] : List String) →
      combineWithHarness userCode lang pb = userCode := by
  refine ⟨?_, ?_, ?_, ?_, ?_⟩
  · simp [combineWithHarness, resolveHarness, hpb, hne]
  · simp [combineWithHarness, resolveHarness, hpb, hne]
  · simp [combineWithHarness, resolveHarness, hpb, hne]
  · simp [combineWithHarness, resolveHarness, hpb, hne]
  · intro lang hlang
    simp only [List.mem_cons, List.mem_singleton, not_or] at hlang
    obtain ⟨h1, h2, h3, h4, -⟩ := hlang
    simp [combineWithHarness, resolveHarness, hpb, hne, h1, h2, h3, h4]

/-- C9 (witness): the amended theorem at the harness `"print(1)"`: the
python composition and the silent `"ruby"` no-op. -/
theorem C9_witness :
    (prFixtureC9.harshnessCode = HarnessField.str "print(1)" ∧ jsTrim "print(1)" ≠ "") ∧
    combineWithHarness "u" "python" prFixtureC9 =
      "u" ++ "\n# --- HARNESS START ---\n" ++ jsTrim "print(1)" ++ "\n# --- HARNESS END ---" ∧
    combineWithHarness "u" "ruby" prFixtureC9 = "u" :=
  ⟨⟨by decide, by decide⟩,
   (C9_amended "u" "print(1)" prFixtureC9 (by decide) (by decide)).2.1,
   (C9_amended "u" "print(1)" prFixtureC9 (by decide) (by decide)).2.2.2.2 "ruby" (by decide)⟩

/-- Concrete fixture for C10: a problem with one 5-point test case. -/
def prFixtureC10 : Problem :=
  { testCases := [{ id := "a", input := "", expectedOutput := "7", isHidden := false,
                    points := 5 }],
    points := 5, harshnessCode := HarnessField.str "" }

/-- Concrete fixture for C10: a clean passing run. -/
def envFixtureC10 : RunEnv :=
  { compileExit := 0, exitCode := 0, stdout := "7", stderr := "", elapsedMs := 2 }

/-- Concrete fixture for C10: the initial record `ContestResult.create`
persists when no record existed yet. -/
def crCreatedFixtureC10 : ContestResult :=
  { problemResults :=
      [{ problemId := "p1", score := 0, maxScore := 5, timeSpent := 0,
         submissionCount := 0, firstAcceptedAt := none, status := "not_attempted" }],
    totalScore := 0, totalTime := 0 }

/-- Concrete fixture for C10: find sees no record, create succeeds (and
persists), then save throws. -/
def storeFixtureC10 : StoreEnv :=
  { findOutcome := Except.ok none,
    createOutcome := Except.ok crCreatedFixtureC10,
    saveFails := true }

/-- Concrete fixture for C10: the find operation itself throws. -/
def storeFindFailC10 : StoreEnv :=
  { findOutcome := Except.error "db down",
    createOutcome := Except.error "db down",
    saveFails := false }

/-- C10 (counterexample): on the path where no ContestResult existed, create
succeeded, and save then failed, the store is NOT left unchanged — it holds
the newly created initial record (`ContestResult.create` persists
immediately), starting from a previously empty store; the caller still gets
the full success response. -/
theorem C10_counterexample :
    (submitSolution "c" "python" prFixtureC10 (fun _ => envFixtureC10) storeFixtureC10
        none "p1" 3).1.success = true ∧
    (submitSolution "c" "python" prFixtureC10 (fun _ => envFixtureC10) storeFixtureC10
        none "p1" 3).2 = some crCreatedFixtureC10 ∧
    some crCreatedFixtureC10 ≠ (none : Option ContestResult) := by
  refine ⟨rfl, by decide, by decide⟩

/-- C10 (amended): `updateContestResult` catches every error internally, so
`submitSolution` always answers with the success response computed from the
graded results alone — identical whatever the persistence layer does, with
no indication of an aggregation failure.  The persisted ContestResult is
unchanged when find throws, when create throws, or when save fails on an
existing record; but when no record existed and create succeeded before save
failed, the store is left holding the newly created initial record, since
`ContestResult.create` persists immediately. -/
theorem C10_amended (code language : String) (pb : Problem)
    (envAt : Nat → RunEnv) (store store2 : StoreEnv)
    (persisted persisted2 : Option ContestResult) (pid : String) (now : Int) :
    (submitSolution code language pb envAt store persisted pid now).1.success = true ∧
    (submitSolution code language pb envAt store persisted pid now).1 =
      (submitSolution code language pb envAt store2 persisted2 pid now).1 ∧
    (∀ e, store.findOutcome = Except.error e →
      (submitSolution code language pb envAt store persisted pid now).2 = persisted) ∧
    (∀ e, store.findOutcome = Except.ok none → store.createOutcome = Except.error e →
      (submitSolution code language pb envAt store persisted pid now).2 = persisted) ∧
    (∀ cr, store.findOutcome = Except.ok (some cr) → store.saveFails = true →
      (submitSolution code language pb envAt store persisted pid now).2 = persisted) ∧
    (∀ created, store.findOutcome = Except.ok none →
      store.createOutcome = Except.ok created → store.saveFails = true →
      (submitSolution code language pb envAt store persisted pid now).2 = some created) := by
  refine ⟨rfl, rfl, ?_, ?_, ?_, ?_⟩
  · intro e he
    simp [submitSolution, updateContestResult, he]
  · intro e hf hc
    simp [submitSolution, updateContestResult, hf, hc]
  · intro cr hf hs
    simp [submitSolution, updateContestResult, hf, hs]
  · intro created hf hc hs
    simp [submitSolution, updateContestResult, hf, hc, hs]

/-- C10 (witness): the amended theorem at the concrete fixtures — a
find-failure leaves the prior record untouched, and the
create-then-save-failure path leaves the created record, with the caller
getting `success = true` either way. -/
theorem C10_witness :
    (storeFixtureC10.findOutcome = Except.ok none ∧
     storeFixtureC10.createOutcome = Except.ok crCreatedFixtureC10 ∧
     storeFixtureC10.saveFails = true ∧
     storeFindFailC10.findOutcome = Except.error "db down") ∧
    (submitSolution "c" "python" prFixtureC10 (fun _ => envFixtureC10) storeFixtureC10
        none "p1" 3).1.success = true ∧
    (submitSolution "c" "python" prFixtureC10 (fun _ => envFixtureC10) storeFixtureC10
        none "p1" 3).2 = some crCreatedFixtureC10 ∧
    (submitSolution "c" "python" prFixtureC10 (fun _ => envFixtureC10) storeFindFailC10
        (some crCreatedFixtureC10) "p1" 3).2 = some crCreatedFixtureC10 :=
  ⟨⟨rfl, rfl, rfl, rfl⟩,
   (C10_amended "c" "python" prFixtureC10 (fun _ => envFixtureC10) storeFixtureC10
     storeFixtureC10 none none "p1" 3).1,
   (C10_amended "c" "python" prFixtureC10 (fun _ => envFixtureC10) storeFixtureC10
     storeFixtureC10 none none "p1" 3).2.2.2.2.2 crCreatedFixtureC10 rfl rfl rfl,
   (C10_amended "c" "python" prFixtureC10 (fun _ => envFixtureC10) storeFindFailC10
     storeFindFailC10 (some crCreatedFixtureC10) (some crCreatedFixtureC10) "p1" 3).2.2.1
     "db down" rfl⟩

end DSAContest
